import Mathlib

/-!
Shallow embedding of the bevy-mpm 2D MPM fluid solver, with theorems
checking the natural-language specification against the code.

Numeric convention: the Rust code computes in `f32`; the claims under
check are stated "exactly in exact arithmetic; within floating tolerance
in f32", so real-valued state is embedded as `ℚ` (exact arithmetic) and
machine integers as `ℤ`/`ℕ` with explicit `% 2^w` where wrap-around
matters.  Definitions are translated from the source files named in each
section header.
-/

set_option maxRecDepth 4000

/-- Two-component vector of exact rationals, embedding `glam::Vec2` /
`nalgebra::Vector2<f32>`. -/
structure Vec2 where
  x : ℚ
  y : ℚ
deriving DecidableEq, Repr

/-- Two-component integer vector, embedding `glam::IVec2`. -/
structure IVec2 where
  x : ℤ
  y : ℤ
deriving DecidableEq, Repr

namespace Vec2

def add (a b : Vec2) : Vec2 := ⟨a.x + b.x, a.y + b.y⟩

def sub (a b : Vec2) : Vec2 := ⟨a.x - b.x, a.y - b.y⟩

def smul (c : ℚ) (a : Vec2) : Vec2 := ⟨c * a.x, c * a.y⟩

def zero : Vec2 := ⟨0, 0⟩

end Vec2

namespace IVec2

def add (a b : IVec2) : IVec2 := ⟨a.x + b.x, a.y + b.y⟩

/-- Embeds `IVec2::as_vec2` (exact for the i32 range). -/
def asVec2 (a : IVec2) : Vec2 := ⟨(a.x : ℚ), (a.y : ℚ)⟩

def one : IVec2 := ⟨1, 1⟩

end IVec2

/- ===================================================================
   src/src/core/grid.rs — interpolation kernel and boundary conditions
   =================================================================== -/

namespace CoreGrid

/-- `GRID_RESOLUTION` from src/src/core/grid.rs (128x128 grid). -/
def GRID_RESOLUTION : ℤ := 128

/-- Embeds `calculate_bspline_weight(d) -> [f32; 3]`:
`[0.5*(0.5-d)*(0.5-d), 0.75-d*d, 0.5*(0.5+d)*(0.5+d)]`. -/
def calculate_bspline_weight (d : ℚ) : Fin 3 → ℚ :=
  ![(1/2) * ((1/2) - d) * ((1/2) - d),
    (3/4) - d * d,
    (1/2) * ((1/2) + d) * ((1/2) + d)]

/-- Embeds `struct GridInterpolation` from src/src/core/grid.rs. -/
structure GridInterpolation where
  base_cell : IVec2
  weights : Fin 3 → Vec2
  neighbor_coords : Fin 9 → IVec2
  cell_distances : Fin 9 → Vec2

/-- Embeds `GridInterpolation::compute_for_particle`.  The source takes
`particle_position.x.floor() as i32 - 1`; for positions that stay in the
i32-representable range the cast is the identity, so the base cell is
`⌊p⌋ - 1` per axis.  Neighbor `idx = gy*3+gx` has coordinate
`base_cell + (gx, gy)` and distance `(coord - p) + 0.5`. -/
def computeForParticle (p : Vec2) : GridInterpolation :=
  let base_cell : IVec2 := ⟨⌊p.x⌋ - 1, ⌊p.y⌋ - 1⟩
  let center_cell := base_cell.add IVec2.one
  let cell_difference : Vec2 :=
    ⟨p.x - (center_cell.x : ℚ) - 1/2, p.y - (center_cell.y : ℚ) - 1/2⟩
  let xw := calculate_bspline_weight cell_difference.x
  let yw := calculate_bspline_weight cell_difference.y
  { base_cell := base_cell
    weights := fun i => ⟨xw i, yw i⟩
    neighbor_coords := fun idx =>
      ⟨base_cell.x + ((idx : ℕ) % 3 : ℕ), base_cell.y + ((idx : ℕ) / 3 : ℕ)⟩
    cell_distances := fun idx =>
      let coord : IVec2 :=
        ⟨base_cell.x + ((idx : ℕ) % 3 : ℕ), base_cell.y + ((idx : ℕ) / 3 : ℕ)⟩
      ⟨((coord.x : ℚ) - p.x) + 1/2, ((coord.y : ℚ) - p.y) + 1/2⟩ }

/-- Embeds `GridInterpolation::weight_for_neighbor`:
`weights[idx % 3].x * weights[idx / 3].y`. -/
def weightForNeighbor (g : GridInterpolation) (idx : Fin 9) : ℚ :=
  (g.weights ⟨(idx : ℕ) % 3, by omega⟩).x * (g.weights ⟨(idx : ℕ) / 3, by omega⟩).y

/-- Embeds `is_valid_grid_coord`: both axes in `[0, GRID_RESOLUTION)`. -/
def is_valid_grid_coord (c : IVec2) : Bool :=
  decide (0 ≤ c.x) && decide (c.x < GRID_RESOLUTION) &&
  decide (0 ≤ c.y) && decide (c.y < GRID_RESOLUTION)

/-- Offsets `(-1..=1) × (-1..=1)` walked by `is_coord_neighborhood_safe`. -/
def safetyOffsets : List (ℤ × ℤ) :=
  [(-1, -1), (0, -1), (1, -1), (-1, 0), (0, 0), (1, 0), (-1, 1), (0, 1), (1, 1)]

/-- Embeds `is_coord_neighborhood_safe`: every cell of the 3x3
neighborhood around `center` is a valid grid coordinate. -/
def is_coord_neighborhood_safe (center : IVec2) : Bool :=
  safetyOffsets.all fun d =>
    is_valid_grid_coord ⟨center.x + d.1, center.y + d.2⟩

end CoreGrid

/- ===================================================================
   src/src/geometry/sp_grid.rs — packed 64-bit cell coordinates
   =================================================================== -/

namespace SpGrid

/-- Embeds Rust `ix as u64` for an `i32` value (sign-extending cast):
the representative of `ix` modulo `2^64`. -/
def toU64 (x : ℤ) : ℕ := (x % (2 ^ 64 : ℤ)).toNat

/-- Embeds Rust `iy as u32` for an `i32` value: representative modulo `2^32`. -/
def toU32 (x : ℤ) : ℕ := (x % (2 ^ 32 : ℤ)).toNat

/-- Embeds Rust `as i32` applied to an unsigned value: truncate to the low
32 bits and reinterpret them as a signed two's-complement integer. -/
def toI32 (n : ℕ) : ℤ :=
  if n % 2 ^ 32 < 2 ^ 31 then (n % 2 ^ 32 : ℤ) else (n % 2 ^ 32 : ℤ) - 2 ^ 32

/-- Embeds `pack_coords(ix, iy) = ((ix as u64) << 32) | (iy as u32 as u64)`
from src/src/geometry/sp_grid.rs (the `u64` shift wraps modulo `2^64`). -/
def pack_coords (ix iy : ℤ) : ℕ :=
  ((toU64 ix <<< 32) % 2 ^ 64) ||| toU32 iy

/-- Embeds `unpack_coords(id) = ((id >> 32) as i32, id as u32 as i32)`. -/
def unpack_coords (id : ℕ) : ℤ × ℤ :=
  (toI32 (id >>> 32), toI32 (id % 2 ^ 32))

end SpGrid

/- ===================================================================
   src/src/math.rs — 2x2 matrix primitives (nalgebra::Matrix2<f32>)
   =================================================================== -/

/-- Two-by-two rational matrix, embedding `nalgebra::Matrix2<f32>` /
`glam::Mat2`.  Entry `mRC` is row `R`, column `C`; `col(0) = (m00, m10)`
and `col(1) = (m01, m11)`. -/
structure Mat2 where
  m00 : ℚ
  m01 : ℚ
  m10 : ℚ
  m11 : ℚ
deriving DecidableEq, Repr

namespace Mat2

/-- Embeds `matrix_trace`. -/
def trace (m : Mat2) : ℚ := m.m00 + m.m11

/-- Embeds `matrix_determinant`. -/
def det (m : Mat2) : ℚ := m.m00 * m.m11 - m.m01 * m.m10

/-- Embeds `identity_matrix`. -/
def identity : Mat2 := ⟨1, 0, 0, 1⟩

/-- Embeds `zero_matrix`. -/
def zero : Mat2 := ⟨0, 0, 0, 0⟩

/-- Matrix-by-scalar product (`m * s`). -/
def smul (s : ℚ) (m : Mat2) : Mat2 := ⟨s * m.m00, s * m.m01, s * m.m10, s * m.m11⟩

/-- Matrix addition. -/
def add (a b : Mat2) : Mat2 := ⟨a.m00 + b.m00, a.m01 + b.m01, a.m10 + b.m10, a.m11 + b.m11⟩

end Mat2

/- ===================================================================
   src/src/core/particle.rs, src/src/materials/* — particle data model,
   fluid material, health check
   =================================================================== -/

namespace Core

/-- Embeds `FluidParams` from src/src/materials/families.rs (the static
`name` string is bookkeeping and not carried). -/
structure FluidParams where
  rest_density : ℚ
  eos_stiffness : ℚ
  eos_power : ℕ
deriving DecidableEq, Repr

/-- Embeds `enum MaterialType { Fluid(FluidParams) }` from
src/src/materials/material_types.rs: a closed single-variant union. -/
inductive MaterialType where
  | Fluid (params : FluidParams)
deriving DecidableEq, Repr

/-- Embeds the `f32::is_finite` test.  `ℚ` carries no NaN or infinity, so
every embedded value is finite; the branch structure of the source is kept
with this constant predicate. -/
def qIsFinite (_ : ℚ) : Bool := true

/-- Embeds `Vec2::is_finite`. -/
def vecIsFinite (v : Vec2) : Bool := qIsFinite v.x && qIsFinite v.y

/-- Embeds `matrix_is_finite` from src/src/core/particle.rs: both columns
finite. -/
def matrix_is_finite (m : Mat2) : Bool :=
  (qIsFinite m.m00 && qIsFinite m.m10) && (qIsFinite m.m01 && qIsFinite m.m11)

/-- Embeds the `Particle` struct of src/src/core/particle.rs restricted to
the fields read or written by the operations under verification
(`rebuild_bins`, `remove_failed`, `update_health`, the material model);
the optional plasticity / contact / fracture / phase bookkeeping fields are
never touched by those paths and are omitted.  `condition_number` lives in
`WithTop ℚ` so that the source's `f32::INFINITY` sentinel (`⊤`) is
representable. -/
structure Particle where
  position : Vec2
  velocity : Vec2
  mass : ℚ
  volume0 : ℚ
  radius0 : ℚ
  affine_momentum_matrix : Mat2
  velocity_gradient : Mat2
  deformation_gradient : Mat2
  material_type : MaterialType
  grid_index : ℕ
  failed : Bool
  condition_number : WithTop ℚ
deriving DecidableEq, Repr

/-- Embeds `Particle::zeroed` (the fields carried by the embedding). -/
def Particle.zeroed (mt : MaterialType) : Particle where
  position := Vec2.zero
  velocity := Vec2.zero
  mass := 1
  volume0 := 1
  radius0 := 1
  affine_momentum_matrix := Mat2.zero
  velocity_gradient := Mat2.zero
  deformation_gradient := Mat2.identity
  material_type := mt
  grid_index := 0
  failed := false
  condition_number := (1 : ℚ)

/-- Default water parameters (`FluidParams::water`, with
REST_DENSITY = 2.0, EOS_STIFFNESS = 10.0, EOS_POWER = 4 from
src/src/config/constants.rs). -/
def FluidParams.water : FluidParams := ⟨2, 10, 4⟩

/-- Embeds `water::project_deformation` from
src/src/materials/fluids/water.rs:
`F := identity * |det(F)|.powf(0.25)`.  The `f32::powf(·, 0.25)` fourth
root is transcendental and is passed in as an uninterpreted function
`pow4`; the theorems proved about the projection hold for every
interpretation of it, in particular the one `f32` computes. -/
def waterProjectDeformation (pow4 : ℚ → ℚ) (p : Particle) : Particle :=
  let jacobian := Mat2.det p.deformation_gradient
  let scale := pow4 |jacobian|
  { p with deformation_gradient := Mat2.smul scale Mat2.identity }

/-- Embeds `MaterialType::project_deformation` from
src/src/materials/material_types.rs: dispatch on the material variant. -/
def MaterialType.projectDeformation (pow4 : ℚ → ℚ) (mt : MaterialType) (p : Particle) :
    Particle :=
  match mt with
  | .Fluid _ => waterProjectDeformation pow4 p

/-- Embeds `Particle::update_health` from src/src/core/particle.rs. -/
def Particle.updateHealth (p : Particle) : Particle :=
  if ¬ matrix_is_finite p.affine_momentum_matrix then
    { p with failed := true, condition_number := ⊤ }
  else
    let det := |Mat2.det p.affine_momentum_matrix|
    let trace := |Mat2.trace p.affine_momentum_matrix|
    let cond : WithTop ℚ := if det > 1 / 10 ^ 12 then ((trace / det : ℚ) : WithTop ℚ) else ⊤
    let p1 := { p with condition_number := cond }
    let p2 :=
      if ((10 ^ 6 : ℚ) : WithTop ℚ) < cond ∨ cond = ⊤ then { p1 with failed := true } else p1
    let p3 :=
      if ¬ vecIsFinite p.position ∨ ¬ vecIsFinite p.velocity ∨ ¬ qIsFinite p.mass ∨
          p.mass ≤ 0 then
        { p2 with failed := true }
      else p2
    if ¬ qIsFinite p.volume0 ∨ p.volume0 ≤ 0 then { p3 with failed := true } else p3

/-- Embeds `update_particles_health`: the health pass over the array. -/
def updateParticlesHealth (ps : List Particle) : List Particle :=
  ps.map Particle.updateHealth

end Core

/- ===================================================================
   src/src/core/grid.rs + src/src/core/mpm_state.rs — grid cells,
   boundary conditions, grid velocity integration
   =================================================================== -/

namespace CoreGrid

/-- Embeds `struct Cell { velocity: Vec2, mass: f32 }`. -/
structure Cell where
  velocity : Vec2
  mass : ℚ
deriving DecidableEq, Repr

/-- Embeds `enum BoundaryHandling { Stick, Slip, None }`. -/
inductive BoundaryHandling where
  | Stick
  | Slip
  | None
deriving DecidableEq, Repr

/-- Embeds `apply_boundary_conditions_coord` from src/src/core/grid.rs.
`near_boundary` holds when either axis is within 2 cells of the valid
range edge; `Stick` and `Slip` then zero the x component exactly when the
x axis is near its edge and the y component exactly when the y axis is
near its edge (the two branches of the source `match` contain identical
statements); `None` applies no correction. -/
def applyBoundaryConditionsCoord (cell : Cell) (coord : IVec2)
    (boundary_type : BoundaryHandling) : Cell :=
  let near_boundary :=
    coord.x < 2 ∨ coord.x > GRID_RESOLUTION - 3 ∨
    coord.y < 2 ∨ coord.y > GRID_RESOLUTION - 3
  if near_boundary then
    match boundary_type with
    | .Stick =>
        let c1 :=
          if coord.x < 2 ∨ coord.x > GRID_RESOLUTION - 3 then
            { cell with velocity := ⟨0, cell.velocity.y⟩ }
          else cell
        if coord.y < 2 ∨ coord.y > GRID_RESOLUTION - 3 then
          { c1 with velocity := ⟨c1.velocity.x, 0⟩ }
        else c1
    | .Slip =>
        let c1 :=
          if coord.x < 2 ∨ coord.x > GRID_RESOLUTION - 3 then
            { cell with velocity := ⟨0, cell.velocity.y⟩ }
          else cell
        if coord.y < 2 ∨ coord.y > GRID_RESOLUTION - 3 then
          { c1 with velocity := ⟨c1.velocity.x, 0⟩ }
        else c1
    | .None => cell
  else cell

/-- Embeds `MpmState::integrate_grid_velocities` from
src/src/core/mpm_state.rs: for every active node with positive mass, add
`gravity * dt` to the velocity (P2G already divided momentum by mass),
then apply the configured boundary policy at the node's coordinates.  The
hash-map of active nodes is embedded as an association list. -/
def integrateGridVelocities (grid : List ((ℤ × ℤ) × Cell)) (gravity : Vec2) (dt : ℚ)
    (boundary : BoundaryHandling) : List ((ℤ × ℤ) × Cell) :=
  let gravity_step := Vec2.smul dt gravity
  grid.map fun entry =>
    let coords := entry.1
    let node := entry.2
    if 0 < node.mass then
      let node1 := { node with velocity := node.velocity.add gravity_step }
      (coords, applyBoundaryConditionsCoord node1 ⟨coords.1, coords.2⟩ boundary)
    else (coords, node)

end CoreGrid

/-- Matrix-vector product (`Mat2 * Vec2`). -/
def Mat2.mulVec (m : Mat2) (v : Vec2) : Vec2 :=
  ⟨m.m00 * v.x + m.m01 * v.y, m.m10 * v.x + m.m11 * v.y⟩

namespace Sim

/-- `GRID_RESOLUTION` from src/src/simulation.rs. -/
def GRID_RESOLUTION : ℕ := 128

/-- Embeds `enum MaterialType { Water { vp0, ap, jp } }` from
src/src/simulation.rs. -/
inductive MaterialType where
  | Water (vp0 ap jp : ℚ)
deriving DecidableEq, Repr

/-- Embeds the `Particle` struct of src/src/simulation.rs. -/
structure Particle where
  position : Vec2
  velocity : Vec2
  mass : ℚ
  affine_momentum_matrix : Mat2
  material_type : MaterialType
deriving DecidableEq, Repr

/-- Embeds the Rust saturating `f32 as u32` cast used by
`particle_position.as_uvec2()`: truncate toward zero and clamp into
`[0, 2^32)`. -/
def asU32 (q : ℚ) : ℕ := (max 0 ⌊q⌋).toNat.min (2 ^ 32 - 1)

/-- Embeds wrapping `u32` arithmetic (release-mode overflow semantics of
`cell_index.x + gx as u32 - 1`). -/
def u32wrap (z : ℤ) : ℕ := (z % 2 ^ 32).toNat

/-- Embeds `get_cell_index(pos) = pos.y * GRID_RESOLUTION + pos.x`. -/
def get_cell_index (pos : ℕ × ℕ) : ℕ := pos.2 * GRID_RESOLUTION + pos.1

/-- Embeds `calculate_grid_weights` from src/src/simulation.rs: cell index
by `as_uvec2` truncation, per-axis offset `p - cell - 0.5`, and the
inline quadratic B-spline triples combined into three `Vec2`s. -/
def calculate_grid_weights (p : Vec2) : (ℕ × ℕ) × (Fin 3 → Vec2) :=
  let cell_index : ℕ × ℕ := (asU32 p.x, asU32 p.y)
  let dx := p.x - (cell_index.1 : ℚ) - 1/2
  let dy := p.y - (cell_index.2 : ℚ) - 1/2
  let xw : Fin 3 → ℚ :=
    ![1/2 * (1/2 - dx) * (1/2 - dx), 3/4 - dx * dx, 1/2 * (1/2 + dx) * (1/2 + dx)]
  let yw : Fin 3 → ℚ :=
    ![1/2 * (1/2 - dy) * (1/2 - dy), 3/4 - dy * dy, 1/2 * (1/2 + dy) * (1/2 + dy)]
  (cell_index, fun i => ⟨xw i, yw i⟩)

/-- Pointwise update of one grid cell (`grid.cells.get_mut(i)` + write). -/
def updateCell (g : ℕ → CoreGrid.Cell) (i : ℕ) (f : CoreGrid.Cell → CoreGrid.Cell) :
    ℕ → CoreGrid.Cell :=
  fun j => if j = i then f (g j) else g j

/-- The `(gx, gy)` loop order of the nested `for gx { for gy { .. } }`. -/
def scatterPairs : List (Fin 3 × Fin 3) :=
  [(0, 0), (0, 1), (0, 2), (1, 0), (1, 1), (1, 2), (2, 0), (2, 1), (2, 2)]

/-- The `cell_position` of stencil offset `(gx, gy)`:
`(cell_index + g - 1)` per axis in wrapping `u32` arithmetic. -/
def cellPositionOf (cell_index : ℕ × ℕ) (pr : Fin 3 × Fin 3) : ℕ × ℕ :=
  (u32wrap ((cell_index.1 : ℤ) + (pr.1 : ℕ) - 1), u32wrap ((cell_index.2 : ℤ) + (pr.2 : ℕ) - 1))

/-- One iteration of the inner loop body of `particle_to_grid_1`:
accumulate `weight * mass` into the target cell's mass and
`mass_contribution * (velocity + q)` into its velocity. -/
def simStep (cell_index : ℕ × ℕ) (weights : Fin 3 → Vec2) (pt : Particle)
    (g : ℕ → CoreGrid.Cell) (pr : Fin 3 × Fin 3) : ℕ → CoreGrid.Cell :=
  let weight := (weights pr.1).x * (weights pr.2).y
  let cell_position := cellPositionOf cell_index pr
  let cell_distance : Vec2 :=
    ⟨(cell_position.1 : ℚ) - pt.position.x + 1/2, (cell_position.2 : ℚ) - pt.position.y + 1/2⟩
  let q := Mat2.mulVec pt.affine_momentum_matrix cell_distance
  let mass_contribution := weight * pt.mass
  updateCell g (get_cell_index cell_position) fun c =>
    { velocity := c.velocity.add (Vec2.smul mass_contribution (pt.velocity.add q))
      mass := c.mass + mass_contribution }

/-- The body of `particle_to_grid_1` for one particle: compute the grid
weights once, then run the 3x3 scatter loop. -/
def scatterParticle (pt : Particle) (g : ℕ → CoreGrid.Cell) : ℕ → CoreGrid.Cell :=
  let cw := calculate_grid_weights pt.position
  scatterPairs.foldl (simStep cw.1 cw.2 pt) g

/-- Embeds `particle_to_grid_1` from src/src/simulation.rs: the P2G
mass/velocity scatter pass over the particle query. -/
def particle_to_grid_1 (ps : List Particle) (g : ℕ → CoreGrid.Cell) : ℕ → CoreGrid.Cell :=
  ps.foldl (fun acc pt => scatterParticle pt acc) g

/-- The grid after `zero_grid`: every cell zeroed. -/
def zeroGrid : ℕ → CoreGrid.Cell := fun _ => ⟨Vec2.zero, 0⟩

/-- Total mass over the 128x128 dense cell vector. -/
def totalGridMass (g : ℕ → CoreGrid.Cell) : ℚ :=
  ∑ i ∈ Finset.range (GRID_RESOLUTION * GRID_RESOLUTION), (g i).mass

/-- A particle position whose full 3x3 stencil stays inside the valid
coordinate range `[0, 128)`: its truncated cell index is in `[1, 126]`
on both axes. -/
def stencilSafe (p : Vec2) : Prop :=
  1 ≤ asU32 p.x ∧ asU32 p.x ≤ 126 ∧ 1 ≤ asU32 p.y ∧ asU32 p.y ≤ 126

end Sim

/- ===================================================================
   src/src/core/particle_set.rs — compaction (remove_failed)
   =================================================================== -/

namespace PSet

/-- Embeds `ParticleTransferCache` from src/src/core/particle_set.rs: the
cached 9-tuple of (neighbor coordinate, weight, distance). -/
structure ParticleTransferCache where
  neighbors : Fin 9 → IVec2 × ℚ × Vec2
deriving DecidableEq

/-- Embeds `ParticleTransferCache::default`: all-zero neighbor entries. -/
def ParticleTransferCache.default : ParticleTransferCache :=
  ⟨fun _ => (⟨0, 0⟩, 0, Vec2.zero)⟩

/-- The drain loop of `ParticleSet::remove_failed`: walk the zipped
(particle, cache) pairs with the running survivor count `k`; survivors are
kept in order with `mapping[old] = Some(k)`, failed entries are dropped
with `mapping[old] = None`. -/
def compactAux (l : List (Core.Particle × ParticleTransferCache)) (k : ℕ) :
    List Core.Particle × List ParticleTransferCache × List (Option ℕ) :=
  match l, k with
  | [], _ => ([], [], [])
  | (p, c) :: rest, k =>
    if p.failed then
      let r := compactAux rest k
      (r.1, r.2.1, none :: r.2.2)
    else
      let r := compactAux rest (k + 1)
      (p :: r.1, c :: r.2.1, some k :: r.2.2)

/-- Embeds `ParticleSet::remove_failed`: early-return an empty mapping
when no particle is failed; otherwise drain particles zipped with the
transfer cache (`Iterator::zip` truncates to the shorter side, and the
`vec![None; old_len]` mapping keeps trailing `None`s for any unzipped
tail). -/
def remove_failed (ps : List Core.Particle) (cache : List ParticleTransferCache) :
    List Core.Particle × List ParticleTransferCache × List (Option ℕ) :=
  if ¬ ps.any (·.failed) then (ps, cache, [])
  else
    let r := compactAux (ps.zip cache) 0
    (r.1, r.2.1, r.2.2 ++ List.replicate (ps.length - (ps.zip cache).length) none)

/-- Modelled from the spec's words for comparison ("produce a vector
`old_index -> Option<new_index>` (None = removed); survivors retain
relative order"): position `i` holds `some` of the number of live
particles before `i` when particle `i` is live, `none` otherwise. -/
def specRemap (ps : List Core.Particle) (k : ℕ) : List (Option ℕ) :=
  match ps, k with
  | [], _ => []
  | p :: rest, k =>
    if p.failed then none :: specRemap rest k else some k :: specRemap rest (k + 1)

end PSet

/- ===================================================================
   src/src/simulation.rs — legacy dense-grid P2G is embedded above in
   namespace Sim; helper lemmas and claim theorems follow.
   =================================================================== -/

/- ===================================================================
   src/src/constraints.rs + src/src/pbmpm.rs — PBMPM constraint solver
   =================================================================== -/

namespace Pbmpm

/-- Embeds the material enum matched by `IncompressibilityConstraint::solve`
(`crate::simulation::MaterialType` with a `Liquid { .. }` variant).
Modelled from the spec: the declaring module for this variant is not among
the sources (only its `match` site in src/src/constraints.rs is); the spec
describes the constraint pass as applying to liquid/water materials only,
so the variant payload is irrelevant here and a second variant keeps the
source's fall-through branch representable. -/
inductive LpMaterialType where
  | Liquid
  | NonLiquid
deriving DecidableEq, Repr

/-- Embeds the `crate::solver::Particle` fields used by the constraint
pass.  Modelled from the spec: `solver/particle.rs` is declared in
`solver/mod.rs` but missing from the sources, so the struct is
reconstructed from its uses in src/src/constraints.rs and
src/src/pbmpm.rs (tracked liquid density, current and previous-frame
deformation displacement, affine matrix, material tag). -/
structure LpParticle where
  material_type : LpMaterialType
  liquid_density : ℚ
  deformation_displacement : Mat2
  prev_deformation_displacement : Mat2
  affine_momentum_matrix : Mat2
deriving DecidableEq, Repr

/-- Embeds `PbmpmConfig` from src/src/lib.rs. -/
structure PbmpmConfig where
  iteration_count : ℕ
  relaxation_factor : ℚ
  warm_start_weight : ℚ
deriving DecidableEq, Repr

/-- Embeds `PbmpmConfig::default()`: 2 iterations, relaxation 0.5,
warm-start weight 0.2. -/
def PbmpmConfig.default : PbmpmConfig := ⟨2, 1/2, 1/5⟩

/-- Embeds `IncompressibilityConstraint::solve` from
src/src/constraints.rs: for liquid particles, compute the volumetric
strain as the trace of the 2x2 deformation displacement, update the
tracked liquid density to `density * (1 + strain)` clamped to `0.05`,
compute the volume error `1/current_density - 1 - strain` from the
pre-update density, add `volume_error * relaxation_factor` to both
diagonal entries, and return `|volume_error|`; other materials are left
untouched with error 0. -/
def incompressibilitySolve (p : LpParticle) (deformation : Mat2) (relaxation_factor : ℚ) :
    LpParticle × Mat2 × ℚ :=
  match p.material_type with
  | .Liquid =>
      let deformation_trace := deformation.m00 + deformation.m11
      let current_density := p.liquid_density
      let new_density := current_density * (1 + deformation_trace)
      let p1 := { p with liquid_density := max new_density (1/20) }
      let volume_error := 1 / current_density - 1 - deformation_trace
      let lambda := volume_error * relaxation_factor
      let deformation1 := { deformation with
        m00 := deformation.m00 + lambda
        m11 := deformation.m11 + lambda }
      (p1, deformation1, |volume_error|)
  | .NonLiquid => (p, deformation, 0)

/-- Embeds the adaptive relaxation factor of `solve_constraints_pbmpm`:
`config.relaxation_factor * (1 - (iteration / iteration_count) * 0.3)`. -/
def adaptiveRelaxation (cfg : PbmpmConfig) (iteration : ℕ) : ℚ :=
  cfg.relaxation_factor * (1 - ((iteration : ℚ) / (cfg.iteration_count : ℚ)) * (3/10))

/-- Embeds one iteration body of `solve_constraints_pbmpm` for one
particle: blend the working deformation with the previous frame's
solution (full configured weight on iteration 0, zero afterwards), run
the incompressibility solver with the adaptive relaxation, and write the
constrained deformation into both `deformation_displacement` and
`affine_momentum_matrix`; the solver's error is returned alongside. -/
def pbmpmIterationParticle (cfg : PbmpmConfig) (iteration : ℕ) (p : LpParticle) :
    LpParticle × ℚ :=
  let warm_start_weight := if iteration = 0 then cfg.warm_start_weight else 0
  let deformation :=
    (Mat2.smul (1 - warm_start_weight) p.deformation_displacement).add
      (Mat2.smul warm_start_weight p.prev_deformation_displacement)
  let r := incompressibilitySolve p deformation (adaptiveRelaxation cfg iteration)
  ({ r.1 with deformation_displacement := r.2.1, affine_momentum_matrix := r.2.1 }, r.2.2)

/-- The iteration loop of `solve_constraints_pbmpm` specialised to a
single particle: run iteration bodies in order, collect each iteration's
maximal error (the fold of `max` over the positive errors, `0` when
none), and break early when `iteration > 0` and the error drops below
`1e-4`. -/
def pbmpmIterAux (cfg : PbmpmConfig) :
    ℕ → ℕ → LpParticle → List ℚ → LpParticle × List ℚ
  | 0, _, p, errs => (p, errs)
  | fuel + 1, i, p, errs =>
      let r := pbmpmIterationParticle cfg i p
      let error_values : List ℚ := if 0 < r.2 then [r.2] else []
      let max_error := error_values.foldl max 0
      let errs1 := errs ++ [max_error]
      if 0 < i ∧ max_error < 1/10000 then (r.1, errs1)
      else pbmpmIterAux cfg fuel (i + 1) r.1 errs1

/-- Embeds `solve_constraints_pbmpm` from src/src/pbmpm.rs for a single
particle: the fixed-count iteration loop with early termination, followed
by the warm-start storage pass that scales the final deformation by
`warm_start_weight * convergence_quality` into
`prev_deformation_displacement`. -/
def solve_constraints_pbmpm (cfg : PbmpmConfig) (p : LpParticle) : LpParticle :=
  let r := pbmpmIterAux cfg cfg.iteration_count 0 p []
  let max_errors := r.2
  let convergence_quality :=
    if 1 < max_errors.length ∧ 1/100000 < max_errors.headD 0 then
      max (max_errors.headD 0 - max_errors.getLastD 0) 0 / max_errors.headD 0
    else 1/2
  let adaptive_weight := cfg.warm_start_weight * convergence_quality
  { r.1 with prev_deformation_displacement :=
      Mat2.smul adaptive_weight r.1.deformation_displacement }

end Pbmpm

/- ===================================================================
   src/src/core/particle_set.rs + src/src/core/kernel.rs — spatial
   rebuild (rebuild_bins): cell assignment, sort, regions and bins
   =================================================================== -/

namespace PSet

/-- Default particle used for out-of-range list indexing (`getD`); the
Rust code indexes within bounds, so theorems never depend on it. -/
def dfltParticle : Core.Particle := Core.Particle.zeroed (.Fluid Core.FluidParams.water)

/-- Embeds Rust `f32::round` (round half away from zero). -/
def rustRound (q : ℚ) : ℤ :=
  if 0 ≤ q then ⌊q + 1/2⌋ else -⌊-q + 1/2⌋

/-- Embeds `cell_from_position` from src/src/core/kernel.rs:
`(position * (1 / cell_width)).round() as i32` per axis (the cast is the
identity on the i32 range relevant here). -/
def cell_from_position (position : Vec2) (cell_width : ℚ) : IVec2 :=
  let inv := 1 / cell_width
  ⟨rustRound (position.x * inv), rustRound (position.y * inv)⟩

/-- `pack_coords` as duplicated at the top of src/src/core/particle_set.rs
(same body as the sp_grid version). -/
def pack_coords (ix iy : ℤ) : ℕ :=
  ((SpGrid.toU64 ix <<< 32) % 2 ^ 64) ||| SpGrid.toU32 iy

/-- `u64::MAX`, the sentinel sort key given to failed particles. -/
def u64MAX : ℕ := 2 ^ 64 - 1

/-- `usize::MAX`, the empty-slot sentinel inside a particle bin. -/
def usizeMAX : ℕ := 2 ^ 64 - 1

/-- Embeds `populate_transfer_cache` from src/src/core/kernel.rs: fill the
9 cache entries with (neighbor coordinate, weight, distance) from the
grid interpolation of the particle position. -/
def populate_transfer_cache (position : Vec2) : ParticleTransferCache :=
  let interpolation := CoreGrid.computeForParticle position
  ⟨fun idx => (interpolation.neighbor_coords idx,
               CoreGrid.weightForNeighbor interpolation idx,
               interpolation.cell_distances idx)⟩

/-- The derived spatial index produced by `ParticleSet::rebuild_bins`:
updated particles, sort order, `(cell, start, stop)` regions, region id
set (in insertion order), per-particle cell assignments, 5-slot bins and
the transfer cache. -/
structure RebuildResult where
  particles : List Core.Particle
  order : List ℕ
  regions : List (ℕ × ℕ × ℕ)
  active_regions : List ℕ
  active_cells : List ℕ
  particle_bins : List (List ℕ)
  transfer_cache : List ParticleTransferCache

/-- Phase 1 of `rebuild_bins` for one particle: compute its rounded cell;
when the 3x3 neighborhood is not safe, mark the particle failed with
sentinel key `u64::MAX` and a defaulted cache entry; otherwise store the
packed cell id and populate the cache. -/
def rebuildPhase1 (cell_width : ℚ) (p : Core.Particle) :
    Core.Particle × ℕ × ParticleTransferCache :=
  let cell_coord := cell_from_position p.position cell_width
  if ¬ CoreGrid.is_coord_neighborhood_safe cell_coord then
    ({ p with failed := true, grid_index := u64MAX }, u64MAX, ParticleTransferCache.default)
  else
    let packed := pack_coords cell_coord.x cell_coord.y
    ({ p with grid_index := packed }, packed, populate_transfer_cache p.position)

/-- Pad a partially filled bin to its fixed 5-slot width with
`usize::MAX` sentinels. -/
def padBin (b : List ℕ) : List ℕ := b ++ List.replicate (5 - b.length) usizeMAX

/-- The mutable state of the region/bin construction walk. -/
structure BinLoopState where
  current_region : Option (ℕ × ℕ)
  current_bin : List ℕ
  regions : List (ℕ × ℕ × ℕ)
  active_regions : List ℕ
  particle_bins : List (List ℕ)

/-- One step of the region/bin walk of `rebuild_bins` at
`(sorted_idx, particle_idx)`: failed particles are skipped; otherwise the
contiguous cell-region bookkeeping is advanced and the particle index is
appended to the current fixed-width bin (flushing it when full). -/
def binStep (particles1 : List Core.Particle) (st : BinLoopState) (pair : ℕ × ℕ) :
    BinLoopState :=
  let sorted_idx := pair.1
  let particle_idx := pair.2
  let p := particles1.getD particle_idx dfltParticle
  if p.failed then st
  else
    let cell := p.grid_index
    let st1 :=
      match st.current_region with
      | some rc =>
          if rc.1 ≠ cell then
            { st with
              regions := st.regions ++ [(rc.1, rc.2, sorted_idx)]
              active_regions := st.active_regions ++ [rc.1]
              current_region := some (cell, sorted_idx) }
          else st
      | none => { st with current_region := some (cell, sorted_idx) }
    let st2 :=
      if st1.current_bin.length = 5 then
        { st1 with
          particle_bins := st1.particle_bins ++ [padBin st1.current_bin]
          current_bin := [] }
      else st1
    { st2 with current_bin := st2.current_bin ++ [particle_idx] }

/-- Embeds `ParticleSet::rebuild_bins` from src/src/core/particle_set.rs:
phase 1 (cell assignment, neighborhood safety, cache fill), the stable
sort of particle indices by packed cell key, and the region/bin walk with
its trailing flushes (the final region's range runs to `order.len()`). -/
def rebuild_bins (cell_width : ℚ) (ps : List Core.Particle) : RebuildResult :=
  if ps.length = 0 then ⟨[], [], [], [], [], [], []⟩
  else
    let phase1 := ps.map (rebuildPhase1 cell_width)
    let particles1 := phase1.map (·.1)
    let active_cells := phase1.map (·.2.1)
    let cache := phase1.map (·.2.2)
    let order := (List.range ps.length).mergeSort fun a b =>
      (particles1.getD a dfltParticle).grid_index ≤ (particles1.getD b dfltParticle).grid_index
    let stF := order.enum.foldl (binStep particles1) ⟨none, [], [], [], []⟩
    let bins :=
      if 0 < stF.current_bin.length then stF.particle_bins ++ [padBin stF.current_bin]
      else stF.particle_bins
    match stF.current_region with
    | some rc =>
        ⟨particles1, order, stF.regions ++ [(rc.1, rc.2, order.length)],
         stF.active_regions ++ [rc.1], active_cells, bins, cache⟩
    | none => ⟨particles1, order, stF.regions, stF.active_regions, active_cells, bins, cache⟩

/-- The (possibly repeated) grid nodes touched by a cached particle
stencil: the 9 neighbor coordinates of its transfer-cache entries. -/
def stencilCoords (cache : ParticleTransferCache) : List IVec2 :=
  (List.finRange 9).map fun k => (cache.neighbors k).1

/-- The particle-index slots of a bin that hold real particles (the
`usize::MAX` padding removed). -/
def binLiveSlots (bin : List ℕ) : List ℕ := bin.filter (· ≠ usizeMAX)

/-- The claimed colour-safety property of the bins, reading each 5-slot
bin as one colour class (the only grouping `rebuild_bins` produces): any
two distinct particles sharing a bin have disjoint 3x3 stencils. -/
@[reducible]
def binsColourSafe (r : RebuildResult) : Prop :=
  ∀ bin ∈ r.particle_bins, ∀ i ∈ binLiveSlots bin, ∀ j ∈ binLiveSlots bin, i ≠ j →
    ∀ c ∈ stencilCoords (r.transfer_cache.getD i ParticleTransferCache.default),
      c ∉ stencilCoords (r.transfer_cache.getD j ParticleTransferCache.default)

/-- The particle indices covered by a `(cell, start, stop)` region: the
entries of `order` at slots `start ≤ s < stop`. -/
def regionParticles (r : RebuildResult) (reg : ℕ × ℕ × ℕ) : List ℕ :=
  (List.range' reg.2.1 (reg.2.2 - reg.2.1)).map fun s => r.order.getD s 0

/-- The claimed region-exclusion property for particle `idx`: no region's
index range covers a slot of `order` holding `idx`. -/
@[reducible]
def regionsExclude (r : RebuildResult) (idx : ℕ) : Prop :=
  ∀ reg ∈ r.regions, idx ∉ regionParticles r reg

end PSet

/- ===================================================================
   Helper lemmas (shared)
   =================================================================== -/

namespace SpGrid

/-- Bitwise-or of a value shifted entirely above bit 32 with a value below
bit 32 coincides with addition. -/
theorem lor_high_low (a b : ℕ) (h : b < 2 ^ 32) : (a * 2 ^ 32) ||| b = a * 2 ^ 32 + b := by
  apply Nat.eq_of_testBit_eq
  intro i
  rw [Nat.testBit_lor]
  rw [show a * 2 ^ 32 + b = 2 ^ 32 * a + b by ring, Nat.testBit_mul_pow_two_add a h]
  rw [show a * 2 ^ 32 = a <<< 32 by rw [Nat.shiftLeft_eq], Nat.testBit_shiftLeft]
  by_cases hi : i < 32
  · have hge : ¬ (i ≥ 32) := by omega
    simp [hi, hge]
  · have h32 : i ≥ 32 := by omega
    have hb : b.testBit i = false := by
      apply Nat.testBit_lt_two_pow
      calc b < 2 ^ 32 := h
        _ ≤ 2 ^ i := Nat.pow_le_pow_right (by norm_num) h32
    simp [hi, h32, hb]

/-- The packed key is the high word times `2^32` plus the low word. -/
theorem pack_eq_arith (ix iy : ℤ) : pack_coords ix iy = toU32 ix * 2 ^ 32 + toU32 iy := by
  unfold pack_coords
  have h1 : toU64 ix <<< 32 = toU64 ix * 2 ^ 32 := Nat.shiftLeft_eq _ _
  have h2 : (toU64 ix * 2 ^ 32) % 2 ^ 64 = (toU64 ix % 2 ^ 32) * 2 ^ 32 := by
    rw [show (2:ℕ) ^ 64 = 2 ^ 32 * 2 ^ 32 by norm_num, Nat.mul_mod_mul_right]
  have h3 : toU64 ix % 2 ^ 32 = toU32 ix := by
    unfold toU64 toU32
    omega
  have h4 : toU32 iy < 2 ^ 32 := by
    unfold toU32
    omega
  rw [h1, h2, h3, lor_high_low _ _ h4]

end SpGrid

/- ===================================================================
   Theorems for claims C6 and C9
   =================================================================== -/

/-- Per-axis quadratic B-spline weights sum to 1 exactly. -/
theorem bspline_axis_sum (d : ℚ) :
    CoreGrid.calculate_bspline_weight d 0 + CoreGrid.calculate_bspline_weight d 1 +
      CoreGrid.calculate_bspline_weight d 2 = 1 := by
  simp [CoreGrid.calculate_bspline_weight]
  ring

/-- C6: for every particle position, the 9 interpolation weights
`w[gx]*w[gy]` built from the per-axis quadratic B-spline triples
`[0.5*(0.5-d)^2, 0.75-d^2, 0.5*(0.5+d)^2]` evaluated at the particle's
offset from the cell center sum to exactly 1 in exact arithmetic. -/
theorem c6_kernel_partition_of_unity (p : Vec2) :
    ∑ idx : Fin 9, CoreGrid.weightForNeighbor (CoreGrid.computeForParticle p) idx = 1 := by
  simp only [Fin.sum_univ_succ, Fin.sum_univ_zero, CoreGrid.weightForNeighbor,
    CoreGrid.computeForParticle]
  simp [CoreGrid.calculate_bspline_weight]
  ring

/-- C9: for every pair of signed 32-bit cell coordinates, including
negative values, `unpack_coords (pack_coords ix iy) = (ix, iy)`, so the
64-bit packing is injective over all of i32 x i32. -/
theorem c9_pack_unpack_roundtrip (ix iy : ℤ)
    (hx1 : -(2 ^ 31) ≤ ix) (hx2 : ix < 2 ^ 31)
    (hy1 : -(2 ^ 31) ≤ iy) (hy2 : iy < 2 ^ 31) :
    SpGrid.unpack_coords (SpGrid.pack_coords ix iy) = (ix, iy) := by
  rw [SpGrid.pack_eq_arith]
  unfold SpGrid.unpack_coords
  have hux : SpGrid.toU32 ix < 2 ^ 32 := by unfold SpGrid.toU32; omega
  have huy : SpGrid.toU32 iy < 2 ^ 32 := by unfold SpGrid.toU32; omega
  have hhi : (SpGrid.toU32 ix * 2 ^ 32 + SpGrid.toU32 iy) >>> 32 = SpGrid.toU32 ix := by
    rw [Nat.shiftRight_eq_div_pow]
    omega
  have hlo : (SpGrid.toU32 ix * 2 ^ 32 + SpGrid.toU32 iy) % 2 ^ 32 = SpGrid.toU32 iy := by
    omega
  rw [hhi, hlo]
  have gx : SpGrid.toI32 (SpGrid.toU32 ix) = ix := by
    unfold SpGrid.toI32 SpGrid.toU32
    split <;> omega
  have gy : SpGrid.toI32 (SpGrid.toU32 iy) = iy := by
    unfold SpGrid.toI32 SpGrid.toU32
    split <;> omega
  rw [gx, gy]

/-- C9 witness: the roundtrip at the concrete pair `(-5, 7)`. -/
theorem c9_pack_unpack_roundtrip_witness :
    (-(2 ^ 31) ≤ (-5 : ℤ) ∧ (-5 : ℤ) < 2 ^ 31 ∧ -(2 ^ 31) ≤ (7 : ℤ) ∧ (7 : ℤ) < 2 ^ 31) ∧
      SpGrid.unpack_coords (SpGrid.pack_coords (-5) 7) = (-5, 7) :=
  ⟨by norm_num,
   c9_pack_unpack_roundtrip (-5) 7 (by norm_num) (by norm_num) (by norm_num) (by norm_num)⟩

/-- C7: for every fluid particle and every interpretation `pow4` of the
`f32` fourth root `powf(·, 0.25)`, after `project_deformation` (dispatched
through `MaterialType::project_deformation`) the deformation gradient
equals the identity scaled by `pow4 |det F|`: a pure uniform scaling
matrix, off-diagonal entries exactly zero, equal diagonal entries —
regardless of the deformation gradient the preceding scatter/gather
produced. -/
theorem c7_fluid_deformation_reisotropy (pow4 : ℚ → ℚ) (p : Core.Particle) :
    (Core.MaterialType.projectDeformation pow4 p.material_type p).deformation_gradient =
        Mat2.smul (pow4 |Mat2.det p.deformation_gradient|) Mat2.identity ∧
      (Core.MaterialType.projectDeformation pow4 p.material_type p).deformation_gradient.m01
          = 0 ∧
      (Core.MaterialType.projectDeformation pow4 p.material_type p).deformation_gradient.m10
          = 0 ∧
      (Core.MaterialType.projectDeformation pow4 p.material_type p).deformation_gradient.m00
        = (Core.MaterialType.projectDeformation pow4 p.material_type
            p).deformation_gradient.m11 := by
  cases hmt : p.material_type with
  | Fluid params =>
    simp [Core.MaterialType.projectDeformation, Core.waterProjectDeformation, hmt,
      Mat2.smul, Mat2.identity]

/-- C10: `update_health` never clears the failed flag — a particle that is
failed before the end-of-step health check is still failed after it, so a
failure detected at any point in a step persists until compaction. -/
theorem c10_health_never_clears_failed (p : Core.Particle) (h : p.failed = true) :
    (Core.Particle.updateHealth p).failed = true := by
  unfold Core.Particle.updateHealth
  split
  · simp
  · dsimp only
    split <;> split <;> split <;> simp [h]

/-- C10 witness: the health check keeps a concrete already-failed water
particle failed. -/
theorem c10_health_never_clears_failed_witness :
    ({ Core.Particle.zeroed (.Fluid Core.FluidParams.water) with failed := true} :
        Core.Particle).failed = true ∧
    (Core.Particle.updateHealth
      { Core.Particle.zeroed (.Fluid Core.FluidParams.water) with failed := true }).failed
        = true :=
  ⟨rfl, c10_health_never_clears_failed _ rfl⟩

/-- C4 counterexample: the node at coordinates `(1, 64)` lies within the
2-cell margin of the x-minimum edge and has positive mass, but under
`Stick` the grid update zeroes only its x velocity component: the claim
that Stick zeroes both components is false (the source's Stick branch is
identical to Slip). -/
theorem c4_stick_counterexample :
    (CoreGrid.integrateGridVelocities [((1, 64), ⟨⟨3, 5⟩, 1⟩)] Vec2.zero 1
        CoreGrid.BoundaryHandling.Stick).map (fun e => e.2.velocity) = [⟨0, 5⟩] ∧
      (⟨0, 5⟩ : Vec2) ≠ ⟨0, 0⟩ := by
  constructor
  · simp [CoreGrid.integrateGridVelocities, CoreGrid.applyBoundaryConditionsCoord,
      CoreGrid.GRID_RESOLUTION, Vec2.smul, Vec2.add, Vec2.zero]
  · intro hcontra
    have : (5 : ℚ) = 0 := congrArg Vec2.y hcontra
    norm_num at this

/-- C4 (amended): after grid velocity integration, for every active node
with positive mass, under both Stick and Slip each velocity component is
zeroed exactly when its own axis is within the 2-cell margin of that
axis's valid-range edge (the Stick and Slip branches are identical), the
other component keeping its gravity-integrated value; under None (Open)
the boundary policy leaves the gravity-integrated velocity unchanged. -/
theorem c4_boundary_policies_per_axis (x y : ℤ) (cell : CoreGrid.Cell) (g : Vec2) (dt : ℚ)
    (h : 0 < cell.mass) :
    (∀ bt, (bt = CoreGrid.BoundaryHandling.Stick ∨ bt = CoreGrid.BoundaryHandling.Slip) →
        CoreGrid.integrateGridVelocities [((x, y), cell)] g dt bt =
          [((x, y), { cell with velocity :=
            ⟨if x < 2 ∨ x > CoreGrid.GRID_RESOLUTION - 3 then 0 else cell.velocity.x + dt * g.x,
             if y < 2 ∨ y > CoreGrid.GRID_RESOLUTION - 3 then 0
               else cell.velocity.y + dt * g.y⟩ })]) ∧
    CoreGrid.integrateGridVelocities [((x, y), cell)] g dt CoreGrid.BoundaryHandling.None =
      [((x, y), { cell with velocity :=
        ⟨cell.velocity.x + dt * g.x, cell.velocity.y + dt * g.y⟩ })] := by
  constructor
  · rintro bt (rfl | rfl) <;>
      (simp only [CoreGrid.integrateGridVelocities, CoreGrid.applyBoundaryConditionsCoord,
        List.map, Vec2.smul, Vec2.add, h, if_pos]
       split_ifs <;> simp_all)
  · simp only [CoreGrid.integrateGridVelocities, CoreGrid.applyBoundaryConditionsCoord,
      List.map, Vec2.smul, Vec2.add, h, if_pos]
    split_ifs <;> simp_all

/-- C4 witness: the amended boundary-policy theorem applied to the node at
`(1, 64)` with velocity `(3, 5)`, unit mass, zero gravity and `dt = 1`. -/
theorem c4_boundary_policies_per_axis_witness :
    (0 : ℚ) < (1 : ℚ) ∧
      CoreGrid.integrateGridVelocities [((1, 64), ⟨⟨3, 5⟩, 1⟩)] ⟨0, 0⟩ 1
          CoreGrid.BoundaryHandling.None =
        [((1, 64), ⟨⟨3 + 1 * 0, 5 + 1 * 0⟩, 1⟩)] :=
  ⟨by norm_num, (c4_boundary_policies_per_axis 1 64 ⟨⟨3, 5⟩, 1⟩ ⟨0, 0⟩ 1 (by norm_num)).2⟩

namespace Sim

/-- Updating one in-range cell changes the total grid mass by exactly the
mass delta of the update. -/
theorem totalGridMass_updateCell (g : ℕ → CoreGrid.Cell) (i : ℕ)
    (hi : i < GRID_RESOLUTION * GRID_RESOLUTION) (f : CoreGrid.Cell → CoreGrid.Cell) (a : ℚ)
    (hf : ∀ c, (f c).mass = c.mass + a) :
    totalGridMass (updateCell g i f) = totalGridMass g + a := by
  unfold totalGridMass updateCell
  have hsum : ∀ j ∈ Finset.range (GRID_RESOLUTION * GRID_RESOLUTION),
      ((fun j => if j = i then f (g j) else g j) j).mass
        = (g j).mass + (if j = i then a else 0) := by
    intro j _
    by_cases hji : j = i
    · simp [hji, hf]
    · simp [hji]
  rw [Finset.sum_congr rfl hsum, Finset.sum_add_distrib]
  rw [Finset.sum_ite_eq' (Finset.range (GRID_RESOLUTION * GRID_RESOLUTION)) i (fun _ => a)]
  simp [Finset.mem_range.mpr hi]

/-- One scatter-loop iteration adds `weight * mass` to the total. -/
theorem simStep_totalMass (ci : ℕ × ℕ) (w : Fin 3 → Vec2) (pt : Particle)
    (g : ℕ → CoreGrid.Cell) (pr : Fin 3 × Fin 3)
    (h : get_cell_index (cellPositionOf ci pr) < GRID_RESOLUTION * GRID_RESOLUTION) :
    totalGridMass (simStep ci w pt g pr)
      = totalGridMass g + (w pr.1).x * (w pr.2).y * pt.mass := by
  unfold simStep
  exact totalGridMass_updateCell g _ h _ _ (fun c => rfl)

/-- With the truncated cell index in `[1, 126]` per axis, every stencil
target index stays inside the dense 128x128 cell vector. -/
theorem stencil_index_lt (ci : ℕ × ℕ) (pr : Fin 3 × Fin 3)
    (hx1 : 1 ≤ ci.1) (hx2 : ci.1 ≤ 126) (hy1 : 1 ≤ ci.2) (hy2 : ci.2 ≤ 126) :
    get_cell_index (cellPositionOf ci pr) < GRID_RESOLUTION * GRID_RESOLUTION := by
  unfold get_cell_index cellPositionOf u32wrap GRID_RESOLUTION
  have hgx : (pr.1 : ℕ) < 3 := pr.1.isLt
  have hgy : (pr.2 : ℕ) < 3 := pr.2.isLt
  have hp : (2 : ℤ) ^ 32 = 4294967296 := by norm_num
  rw [hp]
  omega

/-- Folding the scatter step over any list of in-range stencil offsets
adds the corresponding weighted masses to the total. -/
theorem foldl_simStep_totalMass (ci : ℕ × ℕ) (w : Fin 3 → Vec2) (pt : Particle)
    (prs : List (Fin 3 × Fin 3)) (g : ℕ → CoreGrid.Cell)
    (h : ∀ pr ∈ prs,
      get_cell_index (cellPositionOf ci pr) < GRID_RESOLUTION * GRID_RESOLUTION) :
    totalGridMass (prs.foldl (simStep ci w pt) g)
      = totalGridMass g + (prs.map fun pr => (w pr.1).x * (w pr.2).y * pt.mass).sum := by
  induction prs generalizing g with
  | nil => simp
  | cons pr rest ih =>
    simp only [List.foldl_cons, List.map_cons, List.sum_cons]
    rw [ih _ (fun q hq => h q (List.mem_cons_of_mem _ hq))]
    rw [simStep_totalMass ci w pt g pr (h pr (List.mem_cons_self _ _))]
    ring

/-- Scattering one stencil-safe particle adds exactly its mass to the
total grid mass (the 9 kernel weights sum to 1). -/
theorem scatterParticle_totalMass (pt : Particle) (g : ℕ → CoreGrid.Cell)
    (h : stencilSafe pt.position) :
    totalGridMass (scatterParticle pt g) = totalGridMass g + pt.mass := by
  obtain ⟨hx1, hx2, hy1, hy2⟩ := h
  unfold scatterParticle
  rw [foldl_simStep_totalMass]
  · simp only [scatterPairs, List.map_cons, List.map_nil, List.sum_cons, List.sum_nil,
      calculate_grid_weights]
    simp [Matrix.cons_val_zero, Matrix.cons_val_one, Matrix.head_cons]
    ring
  · intro pr _
    exact stencil_index_lt _ pr hx1 hx2 hy1 hy2

/-- The P2G mass scatter over a particle list adds the sum of the
particle masses to the total grid mass. -/
theorem particle_to_grid_1_totalMass (ps : List Particle) (g : ℕ → CoreGrid.Cell)
    (h : ∀ pt ∈ ps, stencilSafe pt.position) :
    totalGridMass (particle_to_grid_1 ps g) = totalGridMass g + (ps.map Particle.mass).sum := by
  induction ps generalizing g with
  | nil => simp [particle_to_grid_1]
  | cons pt rest ih =>
    simp only [particle_to_grid_1, List.foldl_cons, List.map_cons, List.sum_cons]
    have hrest := ih (scatterParticle pt g) (fun q hq => h q (List.mem_cons_of_mem _ hq))
    unfold particle_to_grid_1 at hrest
    rw [hrest, scatterParticle_totalMass pt g (h pt (List.mem_cons_self _ _))]
    ring

/-- The zeroed grid carries no mass. -/
theorem totalGridMass_zeroGrid : totalGridMass zeroGrid = 0 := by
  simp [totalGridMass, zeroGrid]

end Sim

/-- C1: for every list of particles whose positions keep their full 3x3
kernel stencils inside the valid coordinate range, the total grid mass
summed over all cells after the P2G mass-scatter pass
(`particle_to_grid_1` on the zeroed grid) equals the sum of the particle
masses, exactly in exact arithmetic. -/
theorem c1_mass_conservation (ps : List Sim.Particle)
    (h : ∀ pt ∈ ps, Sim.stencilSafe pt.position) :
    Sim.totalGridMass (Sim.particle_to_grid_1 ps Sim.zeroGrid)
      = (ps.map Sim.Particle.mass).sum := by
  rw [Sim.particle_to_grid_1_totalMass ps Sim.zeroGrid h, Sim.totalGridMass_zeroGrid]
  ring

/-- C1 witness: mass conservation for two concrete particles of masses 2
and 3 placed at `(20, 30)` and `(63, 64)`. -/
theorem c1_mass_conservation_witness :
    (∀ pt ∈ [({ position := ⟨20, 30⟩, velocity := ⟨1, 2⟩, mass := 2,
                 affine_momentum_matrix := Mat2.zero,
                 material_type := .Water 1 0 1 } : Sim.Particle),
              ({ position := ⟨63, 64⟩, velocity := Vec2.zero, mass := 3,
                 affine_momentum_matrix := Mat2.identity,
                 material_type := .Water 1 0 1 } : Sim.Particle)],
        Sim.stencilSafe pt.position) ∧
      Sim.totalGridMass (Sim.particle_to_grid_1
          [({ position := ⟨20, 30⟩, velocity := ⟨1, 2⟩, mass := 2,
              affine_momentum_matrix := Mat2.zero,
              material_type := .Water 1 0 1 } : Sim.Particle),
           ({ position := ⟨63, 64⟩, velocity := Vec2.zero, mass := 3,
              affine_momentum_matrix := Mat2.identity,
              material_type := .Water 1 0 1 } : Sim.Particle)] Sim.zeroGrid)
        = ([({ position := ⟨20, 30⟩, velocity := ⟨1, 2⟩, mass := 2,
               affine_momentum_matrix := Mat2.zero,
               material_type := .Water 1 0 1 } : Sim.Particle),
            ({ position := ⟨63, 64⟩, velocity := Vec2.zero, mass := 3,
               affine_momentum_matrix := Mat2.identity,
               material_type := .Water 1 0 1 } : Sim.Particle)].map Sim.Particle.mass).sum :=
  ⟨by
     intro pt hpt
     simp only [List.mem_cons, List.not_mem_nil, or_false] at hpt
     rcases hpt with rfl | rfl <;> norm_num [Sim.stencilSafe, Sim.asU32],
   c1_mass_conservation _ (by
     intro pt hpt
     simp only [List.mem_cons, List.not_mem_nil, or_false] at hpt
     rcases hpt with rfl | rfl <;> norm_num [Sim.stencilSafe, Sim.asU32])⟩

namespace PSet

/-- The drain loop keeps exactly the non-failed particles, in order, and
produces the canonical old-index-to-new-index map. -/
theorem compactAux_spec (l : List (Core.Particle × ParticleTransferCache)) (k : ℕ) :
    (compactAux l k).1 = (l.map Prod.fst).filter (fun p => !p.failed) ∧
      (compactAux l k).2.2 = specRemap (l.map Prod.fst) k := by
  induction l generalizing k with
  | nil => simp [compactAux, specRemap]
  | cons pc rest ih =>
    obtain ⟨p, c⟩ := pc
    by_cases hf : p.failed <;>
      simp [compactAux, specRemap, hf, ih]

end PSet

/-- C2 (amended): whenever at least one particle is failed (and the
transfer cache matches the particle array in length, as after a rebuild),
`remove_failed` keeps exactly the non-failed particles in their original
relative order and returns the map holding `some new_index` for each
survivor and `none` for each removed particle.  When no particle is
failed the function early-returns an empty map instead (see the
counterexample). -/
theorem c2_stable_compaction (ps : List Core.Particle)
    (cache : List PSet.ParticleTransferCache)
    (hlen : cache.length = ps.length)
    (hany : ps.any (·.failed) = true) :
    (PSet.remove_failed ps cache).1 = ps.filter (fun p => !p.failed) ∧
      (PSet.remove_failed ps cache).2.2 = PSet.specRemap ps 0 := by
  have hzip : (ps.zip cache).map Prod.fst = ps :=
    List.map_fst_zip ps cache (le_of_eq hlen.symm)
  have hlen2 : (ps.zip cache).length = ps.length := by
    rw [List.length_zip, hlen, min_self]
  have h := PSet.compactAux_spec (ps.zip cache) 0
  rw [hzip] at h
  unfold PSet.remove_failed
  rw [if_neg (by simp [hany])]
  refine ⟨h.1, ?_⟩
  rw [hlen2]
  simpa using h.2

/-- C2 counterexample: on a particle array with no failed particle,
`remove_failed` early-returns an *empty* mapping, not a vector indexed by
old particle index — for one live particle the claim demands `[some 0]`
but the code returns `[]`. -/
theorem c2_counterexample :
    (PSet.remove_failed [Core.Particle.zeroed (.Fluid Core.FluidParams.water)]
        [PSet.ParticleTransferCache.default]).2.2 = [] ∧
      ([] : List (Option ℕ)) ≠ [some 0] := by
  constructor
  · simp [PSet.remove_failed, Core.Particle.zeroed]
  · simp

/-- C2 witness: the claim's own instance `[A, B*, C, D*, E]` — survivors
`[A, C, E]` in order and remap `[some 0, none, some 1, none, some 2]`. -/
theorem c2_stable_compaction_witness :
    ([PSet.ParticleTransferCache.default, PSet.ParticleTransferCache.default,
      PSet.ParticleTransferCache.default, PSet.ParticleTransferCache.default,
      PSet.ParticleTransferCache.default].length
        = [({ Core.Particle.zeroed (.Fluid Core.FluidParams.water) with mass := 1 } :
              Core.Particle),
           { Core.Particle.zeroed (.Fluid Core.FluidParams.water) with mass := 2, failed := true },
           { Core.Particle.zeroed (.Fluid Core.FluidParams.water) with mass := 3 },
           { Core.Particle.zeroed (.Fluid Core.FluidParams.water) with mass := 4, failed := true },
           { Core.Particle.zeroed (.Fluid Core.FluidParams.water) with mass := 5 }].length) ∧
    ([({ Core.Particle.zeroed (.Fluid Core.FluidParams.water) with mass := 1 } : Core.Particle),
      { Core.Particle.zeroed (.Fluid Core.FluidParams.water) with mass := 2, failed := true },
      { Core.Particle.zeroed (.Fluid Core.FluidParams.water) with mass := 3 },
      { Core.Particle.zeroed (.Fluid Core.FluidParams.water) with mass := 4, failed := true },
      { Core.Particle.zeroed (.Fluid Core.FluidParams.water) with mass := 5 }].any (·.failed)
        = true) ∧
    (PSet.remove_failed
        [({ Core.Particle.zeroed (.Fluid Core.FluidParams.water) with mass := 1 } :
            Core.Particle),
         { Core.Particle.zeroed (.Fluid Core.FluidParams.water) with mass := 2, failed := true },
         { Core.Particle.zeroed (.Fluid Core.FluidParams.water) with mass := 3 },
         { Core.Particle.zeroed (.Fluid Core.FluidParams.water) with mass := 4, failed := true },
         { Core.Particle.zeroed (.Fluid Core.FluidParams.water) with mass := 5 }]
        [PSet.ParticleTransferCache.default, PSet.ParticleTransferCache.default,
         PSet.ParticleTransferCache.default, PSet.ParticleTransferCache.default,
         PSet.ParticleTransferCache.default]).1
      = [({ Core.Particle.zeroed (.Fluid Core.FluidParams.water) with mass := 1 } :
            Core.Particle),
         { Core.Particle.zeroed (.Fluid Core.FluidParams.water) with mass := 3 },
         { Core.Particle.zeroed (.Fluid Core.FluidParams.water) with mass := 5 }] ∧
    (PSet.remove_failed
        [({ Core.Particle.zeroed (.Fluid Core.FluidParams.water) with mass := 1 } :
            Core.Particle),
         { Core.Particle.zeroed (.Fluid Core.FluidParams.water) with mass := 2, failed := true },
         { Core.Particle.zeroed (.Fluid Core.FluidParams.water) with mass := 3 },
         { Core.Particle.zeroed (.Fluid Core.FluidParams.water) with mass := 4, failed := true },
         { Core.Particle.zeroed (.Fluid Core.FluidParams.water) with mass := 5 }]
        [PSet.ParticleTransferCache.default, PSet.ParticleTransferCache.default,
         PSet.ParticleTransferCache.default, PSet.ParticleTransferCache.default,
         PSet.ParticleTransferCache.default]).2.2
      = [some 0, none, some 1, none, some 2] :=
  by
  have h := c2_stable_compaction
      [({ Core.Particle.zeroed (.Fluid Core.FluidParams.water) with mass := 1 } :
            Core.Particle),
         { Core.Particle.zeroed (.Fluid Core.FluidParams.water) with mass := 2, failed := true },
         { Core.Particle.zeroed (.Fluid Core.FluidParams.water) with mass := 3 },
         { Core.Particle.zeroed (.Fluid Core.FluidParams.water) with mass := 4, failed := true },
         { Core.Particle.zeroed (.Fluid Core.FluidParams.water) with mass := 5 }]
      [PSet.ParticleTransferCache.default, PSet.ParticleTransferCache.default,
         PSet.ParticleTransferCache.default, PSet.ParticleTransferCache.default,
         PSet.ParticleTransferCache.default] rfl rfl
  exact ⟨rfl, rfl, h.1, h.2⟩

/-- C8 (amended): in every iteration, for every liquid particle, the
constraint solver updates the tracked liquid density to
`density * (1 + strain)` clamped to a floor of 0.05 (strain = trace of
the 2x2 deformation displacement), computes the volume-error residual
`1/density - 1 - strain` from the pre-update density, and adds
`residual * r` to both diagonal entries of the deformation displacement —
where `r` is the relaxation factor handed to the solver; the PBMPM loop
passes the adaptively scaled
`relaxation_factor * (1 - 0.3 * iteration / iteration_count)`, which
equals the configured relaxation factor only at iteration 0. -/
theorem c8_constraint_update (p : Pbmpm.LpParticle) (deformation : Mat2) (relax : ℚ)
    (hliq : p.material_type = .Liquid) :
    (Pbmpm.incompressibilitySolve p deformation relax).1.liquid_density
        = max (p.liquid_density * (1 + (deformation.m00 + deformation.m11))) (1/20) ∧
      (Pbmpm.incompressibilitySolve p deformation relax).2.1
        = { deformation with
            m00 := deformation.m00
              + (1 / p.liquid_density - 1 - (deformation.m00 + deformation.m11)) * relax,
            m11 := deformation.m11
              + (1 / p.liquid_density - 1 - (deformation.m00 + deformation.m11)) * relax } ∧
      (Pbmpm.incompressibilitySolve p deformation relax).2.2
        = |1 / p.liquid_density - 1 - (deformation.m00 + deformation.m11)| ∧
      (∀ cfg : Pbmpm.PbmpmConfig, Pbmpm.adaptiveRelaxation cfg 0 = cfg.relaxation_factor) := by
  refine ⟨?_, ?_, ?_, ?_⟩ <;>
    simp [Pbmpm.incompressibilitySolve, hliq, Pbmpm.adaptiveRelaxation]

/-- C8 witness: the solver's residual at a concrete liquid particle of
density 1/2 and zero deformation displacement. -/
theorem c8_constraint_update_witness :
    (({ material_type := .Liquid, liquid_density := 1/2,
        deformation_displacement := Mat2.zero,
        prev_deformation_displacement := Mat2.zero,
        affine_momentum_matrix := Mat2.zero } : Pbmpm.LpParticle).material_type
      = Pbmpm.LpMaterialType.Liquid) ∧
    (Pbmpm.incompressibilitySolve
        { material_type := .Liquid, liquid_density := 1/2,
          deformation_displacement := Mat2.zero,
          prev_deformation_displacement := Mat2.zero,
          affine_momentum_matrix := Mat2.zero } Mat2.zero (1/2)).2.2
      = |1 / (1/2 : ℚ) - 1 - ((Mat2.zero.m00 : ℚ) + Mat2.zero.m11)| :=
  ⟨rfl,
   (c8_constraint_update
     { material_type := .Liquid, liquid_density := 1/2,
       deformation_displacement := Mat2.zero,
       prev_deformation_displacement := Mat2.zero,
       affine_momentum_matrix := Mat2.zero } Mat2.zero (1/2) rfl).2.2.1⟩

/-- C8 counterexample: with the default configuration (2 iterations,
relaxation 0.5) and a liquid particle of density 1/2 and deformation
displacement diag(1/10, 0), iteration 1 of the PBMPM loop adds
`residual * 17/40` (the adaptively scaled factor), not
`residual * 1/2` (the configured factor): the final diagonal entry is
322/675, not the 629/1350 the claim predicts. -/
theorem c8_counterexample :
    (Pbmpm.solve_constraints_pbmpm Pbmpm.PbmpmConfig.default
        { material_type := .Liquid, liquid_density := 1/2,
          deformation_displacement := ⟨1/10, 0, 0, 0⟩,
          prev_deformation_displacement := Mat2.zero,
          affine_momentum_matrix := Mat2.zero }).deformation_displacement.m00
      = 322/675 ∧
      (322/675 : ℚ) ≠ 27/50 + (1 / (27/50 : ℚ) - 1 - 1) * (1/2) := by
  constructor
  · with_unfolding_all decide
  · norm_num

/-- C3 counterexample: two particles at the same position land in the
same bin (the only grouping `rebuild_bins` produces — it assigns no
colour metadata, cf. the source's TODO comment), and their 3x3 stencils
coincide, so the claimed same-colour write-disjointness is false. -/
theorem c3_counterexample :
    ¬ PSet.binsColourSafe
        (PSet.rebuild_bins 1
          [{ PSet.dfltParticle with position := ⟨20, 20⟩ },
           { PSet.dfltParticle with position := ⟨20, 20⟩ }]) := by
  with_unfolding_all decide

/-- C5 counterexample: with one live particle and one particle whose
neighborhood check fails, the failed particle is marked failed and its
key set to `u64::MAX`, but the final cell region's range runs to
`order.len()` and therefore covers the failed particle's order slot: it
is not excluded from every cell region. -/
theorem c5_counterexample :
    (CoreGrid.is_coord_neighborhood_safe
        (PSet.cell_from_position (⟨300, 300⟩ : Vec2) 1) = false) ∧
    ((PSet.rebuild_bins 1
        [{ PSet.dfltParticle with position := ⟨20, 20⟩ },
         { PSet.dfltParticle with position := ⟨300, 300⟩ }]).particles.getD 1
        PSet.dfltParticle).failed = true ∧
    (PSet.rebuild_bins 1
        [{ PSet.dfltParticle with position := ⟨20, 20⟩ },
         { PSet.dfltParticle with position := ⟨300, 300⟩ }]).regions
      = [(PSet.pack_coords 20 20, 0, 2)] ∧
    (PSet.rebuild_bins 1
        [{ PSet.dfltParticle with position := ⟨20, 20⟩ },
         { PSet.dfltParticle with position := ⟨300, 300⟩ }]).order = [0, 1] ∧
    ¬ PSet.regionsExclude
        (PSet.rebuild_bins 1
          [{ PSet.dfltParticle with position := ⟨20, 20⟩ },
           { PSet.dfltParticle with position := ⟨300, 300⟩ }]) 1 := by
  refine ⟨?_, ?_, ?_, ?_, ?_⟩ <;> with_unfolding_all decide

namespace PSet

theorem binLiveSlots_padBin (b : List ℕ) : binLiveSlots (padBin b) ⊆ b := by
  intro i hi
  unfold binLiveSlots padBin at hi
  rw [List.filter_append] at hi
  rcases List.mem_append.mp hi with h | h
  · exact List.mem_of_mem_filter h
  · exfalso
    have := List.mem_of_mem_filter h
    have hmax := List.eq_of_mem_replicate this
    have := List.of_mem_filter h
    simp [hmax] at this

theorem binStep_live (particles1 : List Core.Particle) (st : BinLoopState) (pair : ℕ × ℕ)
    (h1 : ∀ bin ∈ st.particle_bins, ∀ i ∈ binLiveSlots bin,
      (particles1.getD i dfltParticle).failed = false)
    (h2 : ∀ i ∈ st.current_bin, (particles1.getD i dfltParticle).failed = false) :
    (∀ bin ∈ (binStep particles1 st pair).particle_bins, ∀ i ∈ binLiveSlots bin,
      (particles1.getD i dfltParticle).failed = false) ∧
    (∀ i ∈ (binStep particles1 st pair).current_bin,
      (particles1.getD i dfltParticle).failed = false) := by
  unfold binStep
  by_cases hf : (particles1.getD pair.2 dfltParticle).failed
  · simp only [hf, if_true]
    exact ⟨h1, h2⟩
  · simp only [hf, if_false, Bool.false_eq_true]
    rcases hcr : st.current_region with _ | rc <;> simp only [hcr]
    · by_cases hl : st.current_bin.length = 5 <;>
        simp only [hl, if_true, if_false] <;>
        refine ⟨?_, ?_⟩
      · intro bin hbin i hi
        rcases List.mem_append.mp hbin with h | h
        · exact h1 bin h i hi
        · have hb : bin = padBin st.current_bin := by simpa using h
          exact h2 i (binLiveSlots_padBin _ (hb ▸ hi))
      · intro i hi
        simp only [List.nil_append, List.mem_singleton] at hi
        rw [hi]
        simpa using hf
      · exact h1
      · intro i hi
        rcases List.mem_append.mp hi with h | h
        · exact h2 i h
        · have : i = pair.2 := by simpa using h
          rw [this]
          simpa using hf
    · by_cases hne : rc.1 ≠ (particles1.getD pair.2 dfltParticle).grid_index <;>
        simp only [hne, if_true, if_false, ite_not] <;>
        by_cases hl : st.current_bin.length = 5 <;>
          simp only [hl, if_true, if_false] <;>
          refine ⟨?_, ?_⟩
      all_goals
        first
          | (intro bin hbin i hi
             rcases List.mem_append.mp hbin with h | h
             · exact h1 bin h i hi
             · have hb : bin = padBin st.current_bin := by simpa using h
               exact h2 i (binLiveSlots_padBin _ (hb ▸ hi)))
          | (intro i hi
             first
               | (simp only [List.nil_append, List.mem_singleton] at hi
                  rw [hi]
                  simpa using hf)
               | (rcases List.mem_append.mp hi with h | h
                  · exact h2 i h
                  · have : i = pair.2 := by simpa using h
                    rw [this]
                    simpa using hf))
          | exact h1

end PSet

namespace PSet

theorem foldl_binStep_live (particles1 : List Core.Particle) (pairs : List (ℕ × ℕ))
    (st : BinLoopState)
    (h1 : ∀ bin ∈ st.particle_bins, ∀ i ∈ binLiveSlots bin,
      (particles1.getD i dfltParticle).failed = false)
    (h2 : ∀ i ∈ st.current_bin, (particles1.getD i dfltParticle).failed = false) :
    (∀ bin ∈ (pairs.foldl (binStep particles1) st).particle_bins, ∀ i ∈ binLiveSlots bin,
      (particles1.getD i dfltParticle).failed = false) ∧
    (∀ i ∈ (pairs.foldl (binStep particles1) st).current_bin,
      (particles1.getD i dfltParticle).failed = false) := by
  induction pairs generalizing st with
  | nil => exact ⟨h1, h2⟩
  | cons pair rest ih =>
    simp only [List.foldl_cons]
    obtain ⟨g1, g2⟩ := binStep_live particles1 st pair h1 h2
    exact ih _ g1 g2

theorem rebuild_bins_live (w : ℚ) (ps : List Core.Particle) :
    ∀ bin ∈ (rebuild_bins w ps).particle_bins, ∀ i ∈ binLiveSlots bin,
      ((rebuild_bins w ps).particles.getD i dfltParticle).failed = false := by
  unfold rebuild_bins
  by_cases hlen : ps.length = 0
  · simp [hlen]
  · rw [if_neg hlen]
    simp only []
    set particles1 := (ps.map (rebuildPhase1 w)).map (·.1) with hp1
    set order := (List.range ps.length).mergeSort fun a b =>
      (particles1.getD a dfltParticle).grid_index ≤ (particles1.getD b dfltParticle).grid_index
      with ho
    set stF := order.enum.foldl (binStep particles1) ⟨none, [], [], [], []⟩ with hst
    obtain ⟨g1, g2⟩ := foldl_binStep_live particles1 order.enum ⟨none, [], [], [], []⟩
      (by intro bin hbin; simp at hbin) (by intro i hi; simp at hi)
    rw [← hst] at g1 g2
    have hbins : ∀ bin ∈ (if 0 < stF.current_bin.length then
          stF.particle_bins ++ [padBin stF.current_bin] else stF.particle_bins),
        ∀ i ∈ binLiveSlots bin, (particles1.getD i dfltParticle).failed = false := by
      by_cases hc : 0 < stF.current_bin.length <;> simp only [hc, if_true, if_false]
      · intro bin hbin i hi
        rcases List.mem_append.mp hbin with h | h
        · exact g1 bin h i hi
        · have hb : bin = padBin stF.current_bin := by simpa using h
          exact g2 i (binLiveSlots_padBin _ (hb ▸ hi))
      · exact g1
    rcases hm : stF.current_region with _ | rc <;> simp only [hm] <;> exact hbins

theorem rebuild_bins_particles (w : ℚ) (ps : List Core.Particle) (h : ¬ ps.length = 0) :
    (rebuild_bins w ps).particles = (ps.map (rebuildPhase1 w)).map (·.1) := by
  unfold rebuild_bins
  rw [if_neg h]
  dsimp only
  split <;> rfl

theorem rebuild_bins_active_cells (w : ℚ) (ps : List Core.Particle) (h : ¬ ps.length = 0) :
    (rebuild_bins w ps).active_cells = (ps.map (rebuildPhase1 w)).map (·.2.1) := by
  unfold rebuild_bins
  rw [if_neg h]
  dsimp only
  split <;> rfl

theorem rebuild_bins_cache (w : ℚ) (ps : List Core.Particle) (h : ¬ ps.length = 0) :
    (rebuild_bins w ps).transfer_cache = (ps.map (rebuildPhase1 w)).map (·.2.2) := by
  unfold rebuild_bins
  rw [if_neg h]
  dsimp only
  split <;> rfl

end PSet

/-- C3 (amended): `rebuild_bins` performs no colour assignment — bins
are plain consecutive 5-slot groups of the cell-sorted live particle
indices (every filled slot holds a non-failed particle; the scheduling
metadata slot of the source is an unimplemented TODO), and two particles
sharing a bin can write to the same grid node, so the bins alone carry no
write-conflict guarantee. -/
theorem c3_bins_carry_no_colour_classes :
    (∀ (w : ℚ) (ps : List Core.Particle), ∀ bin ∈ (PSet.rebuild_bins w ps).particle_bins,
        ∀ i ∈ PSet.binLiveSlots bin,
          ((PSet.rebuild_bins w ps).particles.getD i PSet.dfltParticle).failed = false) ∧
      ¬ PSet.binsColourSafe
          (PSet.rebuild_bins 1
            [{ PSet.dfltParticle with position := ⟨30, 30⟩ },
             { PSet.dfltParticle with position := ⟨30, 30⟩ }]) := by
  constructor
  · exact fun w ps => PSet.rebuild_bins_live w ps
  · with_unfolding_all decide

/-- C3 witness: the bin-liveness part of the amended claim applied to
bin `[0, 1, MAX, MAX, MAX]` of the concrete two-particle rebuild. -/
theorem c3_bins_carry_no_colour_classes_witness :
    ([0, 1, PSet.usizeMAX, PSet.usizeMAX, PSet.usizeMAX] ∈
        (PSet.rebuild_bins 1
          [{ PSet.dfltParticle with position := ⟨30, 30⟩ },
           { PSet.dfltParticle with position := ⟨30, 30⟩ }]).particle_bins) ∧
      (0 ∈ PSet.binLiveSlots [0, 1, PSet.usizeMAX, PSet.usizeMAX, PSet.usizeMAX]) ∧
      ((PSet.rebuild_bins 1
          [{ PSet.dfltParticle with position := ⟨30, 30⟩ },
           { PSet.dfltParticle with position := ⟨30, 30⟩ }]).particles.getD 0
          PSet.dfltParticle).failed = false :=
  ⟨by with_unfolding_all decide,
   by with_unfolding_all decide,
   c3_bins_carry_no_colour_classes.1 1
     [{ PSet.dfltParticle with position := ⟨30, 30⟩ },
      { PSet.dfltParticle with position := ⟨30, 30⟩ }]
     [0, 1, PSet.usizeMAX, PSet.usizeMAX, PSet.usizeMAX]
     (by with_unfolding_all decide) 0 (by with_unfolding_all decide)⟩

/-- C5 (amended): a particle whose rounded base cell has an unsafe 3x3
neighborhood is marked failed immediately by `rebuild_bins`, its sort key
and cell assignment are set to the `u64::MAX` sentinel, its transfer
cache entry is reset to the default (all-zero weights), and it is placed
in no bin built in that call; the final cell region's index range,
however, extends to `order.len()` and can cover its order slot (see the
counterexample). -/
theorem c5_neighborhood_failure (w : ℚ) (ps : List Core.Particle) (idx : ℕ)
    (h1 : idx < ps.length)
    (h2 : CoreGrid.is_coord_neighborhood_safe
        (PSet.cell_from_position (ps.getD idx PSet.dfltParticle).position w) = false) :
    ((PSet.rebuild_bins w ps).particles.getD idx PSet.dfltParticle).failed = true ∧
      ((PSet.rebuild_bins w ps).particles.getD idx PSet.dfltParticle).grid_index
        = PSet.u64MAX ∧
      (PSet.rebuild_bins w ps).active_cells.getD idx 0 = PSet.u64MAX ∧
      (PSet.rebuild_bins w ps).transfer_cache.getD idx PSet.ParticleTransferCache.default
        = PSet.ParticleTransferCache.default ∧
      ∀ bin ∈ (PSet.rebuild_bins w ps).particle_bins, idx ∉ PSet.binLiveSlots bin := by
  have hne : ¬ ps.length = 0 := by omega
  have hidx2 : idx < (ps.map (PSet.rebuildPhase1 w)).length := by
    rw [List.length_map]; exact h1
  have hphase : PSet.rebuildPhase1 w (ps.getD idx PSet.dfltParticle)
      = ({ ps.getD idx PSet.dfltParticle with failed := true, grid_index := PSet.u64MAX },
         PSet.u64MAX, PSet.ParticleTransferCache.default) := by
    have h2b : CoreGrid.is_coord_neighborhood_safe
        (PSet.cell_from_position (ps[idx]?.getD PSet.dfltParticle).position w) = false := by
      simpa using h2
    unfold PSet.rebuildPhase1
    rw [if_pos]
    simp [h2b]
  have hget : ∀ (β : Type) (g : Core.Particle × ℕ × PSet.ParticleTransferCache → β) (d : β),
      (((ps.map (PSet.rebuildPhase1 w)).map g).getD idx d)
        = g (PSet.rebuildPhase1 w (ps.getD idx PSet.dfltParticle)) := by
    intro β g d
    rw [List.getD_eq_getElem _ _ (by rw [List.length_map, List.length_map]; exact h1)]
    rw [List.getElem_map, List.getElem_map]
    rw [List.getD_eq_getElem _ _ h1]
  have hfail : ((PSet.rebuild_bins w ps).particles.getD idx PSet.dfltParticle).failed = true := by
    rw [PSet.rebuild_bins_particles w ps hne, hget Core.Particle (·.1) PSet.dfltParticle, hphase]
  refine ⟨hfail, ?_, ?_, ?_, ?_⟩
  · rw [PSet.rebuild_bins_particles w ps hne, hget Core.Particle (·.1) PSet.dfltParticle, hphase]
  · rw [PSet.rebuild_bins_active_cells w ps hne, hget ℕ (·.2.1) 0, hphase]
  · rw [PSet.rebuild_bins_cache w ps hne,
      hget PSet.ParticleTransferCache (·.2.2) PSet.ParticleTransferCache.default, hphase]
  · intro bin hbin hcontra
    have hlive := PSet.rebuild_bins_live w ps bin hbin idx hcontra
    rw [hfail] at hlive
    simp at hlive

/-- C5 witness: the quarantine theorem applied to the concrete rebuild
with a particle at `(300, 300)` whose neighborhood is out of range. -/
theorem c5_neighborhood_failure_witness :
    (1 < ([{ PSet.dfltParticle with position := ⟨20, 20⟩ },
           { PSet.dfltParticle with position := ⟨300, 300⟩ }] : List Core.Particle).length) ∧
      (CoreGrid.is_coord_neighborhood_safe
        (PSet.cell_from_position
          (([{ PSet.dfltParticle with position := ⟨20, 20⟩ },
             { PSet.dfltParticle with position := ⟨300, 300⟩ }] :
              List Core.Particle).getD 1 PSet.dfltParticle).position 1) = false) ∧
      ((PSet.rebuild_bins 1
          [{ PSet.dfltParticle with position := ⟨20, 20⟩ },
           { PSet.dfltParticle with position := ⟨300, 300⟩ }]).particles.getD 1
          PSet.dfltParticle).failed = true :=
  ⟨by decide,
   by with_unfolding_all decide,
   (c5_neighborhood_failure 1
     [{ PSet.dfltParticle with position := ⟨20, 20⟩ },
      { PSet.dfltParticle with position := ⟨300, 300⟩ }] 1
     (by decide) (by with_unfolding_all decide)).1⟩
